import Mathlib

/-!
Verification of the kiv-ds-semester-proj repository against its specification.

The development shallowly embeds the Python sources:
* `src/ex02/node/src/node.py` — Bully leader election, coloring protocol,
  heartbeat failure detection (class `Node`);
* `src/ex03/client/src/store/store_controller.py` and `store_service.py` —
  the hierarchical write-through key-value store;
* `src/ex03/client/src/cluster/cluster_structure.py` — the root's binary-tree
  position service.

Python dictionaries are modelled as association lists, Python sets as lists of
distinct elements, and wall-clock timeouts as oracle bits attached to each
loop iteration event (each event records what `Timeout.timed_out()` returned
at that point; `Timeout.extend`/`reset` only influence that oracle).  Message
sends are collected into explicit output lists; exceptions used for control
flow (`ClusterResetException`, `ElectionUnsuccessfulException`) become
distinguished result constructors, with any state mutation and sends performed
before the raise preserved in the result, as in Python.
-/

namespace KivDs

/-- Python message values in ex02 are either ints (node ids) or strings
(`victory`, `surrender`, `request`, `response`, color names). -/
inductive MVal where
  | intV (n : Nat)
  | strV (s : String)
  deriving DecidableEq, Repr

/-- `Message` from `src/ex02/node/src/message.py`: key, value, sender id. -/
structure Message where
  key : String
  value : MVal
  sender_id : Nat
  deriving DecidableEq, Repr

/-- An outbound send `messenger.send_message(node_id, endpoint, value)`. -/
structure OutMsg where
  node_id : Nat
  endpoint : String
  value : MVal
  deriving DecidableEq, Repr

/-- Association-list lookup, modelling Python `d[k]` / `k in d`. -/
def dictGet {α β : Type} [DecidableEq α] : List (α × β) → α → Option β
  | [], _ => none
  | p :: t, k => if p.1 = k then some p.2 else dictGet t k

/-- Association-list update, modelling Python `d[k] = v` (a present key keeps
its position and gets the new value; a new key is appended at the end,
matching dict insertion order). -/
def dictSet {α β : Type} [DecidableEq α] : List (α × β) → α → β → List (α × β)
  | [], k, v => [(k, v)]
  | p :: t, k, v => if p.1 = k then (k, v) :: t else p :: dictSet t k v

/-- Association-list removal, modelling Python `del d[k]` (note: Python
raises `KeyError` when the key is absent; all modelled call sites delete a
key that the caller just observed in the dictionary). -/
def dictRemove {α β : Type} [DecidableEq α] (d : List (α × β)) (k : α) :
    List (α × β) :=
  d.filter (fun p => ¬ p.1 = k)

/-- Number of entries of the association list carrying color `c`. -/
def countColor (d : List (Nat × String)) (c : String) : Nat :=
  (d.filter (fun p => p.2 = c)).length

/-- The mutable fields of `Node.__init__` that the election/coloring logic
reads and writes (`src/ex02/node/src/node.py`, lines 51-74). -/
structure NodeState where
  id : Nat
  max_node_id : Nat
  color : String
  is_master : Bool
  master_id : Option Nat
  surrendered : Bool
  alive_nodes : List Nat
  node_colors : List (Nat × String)
  nodes_to_color : List (Nat × String)
  deriving DecidableEq, Repr

/-- `Node.change_color` (lines 76-87). -/
def changeColor (s : NodeState) (c : String) : NodeState :=
  if s.color = c then s else { s with color := c }

/-- The peers of a node: every index of `node_addrs` other than its own, as
enumerated by `Messenger.broadcast` (`messenger.py`, lines 56-71). -/
def peers (s : NodeState) : List Nat :=
  (List.range (s.max_node_id + 1)).filter (fun j => ¬ j = s.id)

/-- `Messenger.broadcast(endpoint, value)`: one send per peer. -/
def broadcastMsgs (s : NodeState) (ep : String) (v : MVal) : List OutMsg :=
  (peers s).map (fun j => ⟨j, ep, v⟩)

/-- `Node.declare_self_as_master` (lines 262-272): set `is_master`,
`master_id`, broadcast `election/victory`, change color to `master`. -/
def declare_self_as_master (s : NodeState) : NodeState × List OutMsg :=
  let s1 : NodeState := { s with is_master := true, master_id := some s.id }
  (changeColor s1 "master", broadcastMsgs s1 "election" (MVal.strV "victory"))

/-- `Node.handle_election_message` (lines 185-228).  Result: new state, sends,
and the returned bool (`True` signals the election loop to exit).  The
`timeout.extend(ELECTION_EXTENSION_SECS)` performed in the surrender branch
only shifts when the wall-clock timeout fires, which the event oracle of
`electionLoop` carries, so it needs no state here. -/
def handle_election_message (s : NodeState) (m : Message) :
    NodeState × List OutMsg × Bool :=
  if m.value = MVal.strV "victory" ∧ s.id < m.sender_id then
    -- if self.master_id is not None and self.master_id == message.sender_id
    if s.master_id = some m.sender_id then (s, [], false)
    else ({ s with master_id := some m.sender_id, is_master := false }, [], true)
  else if m.value = MVal.strV "surrender" ∧ s.surrendered = false then
    ({ s with surrendered := true }, [], false)
  else
    match m.value with
    | MVal.intV v =>
        if v < s.id then
          (s, [⟨m.sender_id, "election", MVal.strV "surrender"⟩], false)
        else (s, [], false)
    | MVal.strV _ => (s, [], false)

/-- Result of `Node.check_for_cluster_changes` (lines 230-260): the state and
sends produced before returning or raising, and whether
`ClusterResetException` was raised. -/
structure GuardResult where
  state : NodeState
  sent : List OutMsg
  raised : Bool
  deriving DecidableEq, Repr

/-- `Node.check_for_cluster_changes(message, finding_active_nodes)`. -/
def check_for_cluster_changes (s : NodeState) (m : Message) (finding : Bool) :
    GuardResult :=
  if ¬ m.key = "election" then ⟨s, [], false⟩
  else
    match m.value with
    | MVal.intV v =>
        if v < s.id then
          ⟨s, [⟨m.sender_id, "election", MVal.strV "victory"⟩],
            finding = false ∧ ¬ m.sender_id ∈ s.alive_nodes⟩
        else ⟨s, [], false⟩
    | MVal.strV t =>
        if t = "victory" ∧ s.id < m.sender_id then
          ⟨{ s with master_id := some m.sender_id, is_master := false }, [], true⟩
        else ⟨s, [], false⟩

/-- One iteration event of the election loop: the result of
`read_next_message(ELECTION_MSG_QUEUE_SLEEP_SECS)` and what
`election_timeout.timed_out()` returned right after that read. -/
structure InboxEvent where
  msg : Option Message
  timedOut : Bool
  deriving DecidableEq, Repr

/-- How `Node.election` (lines 142-183) terminates. -/
inductive ElectionResult where
  | declaredMaster (s : NodeState) (out : List OutMsg)
  | unsuccessful (s : NodeState) (out : List OutMsg)
  | masterFound (s : NodeState) (out : List OutMsg)
  deriving DecidableEq, Repr

/-- The `while True` loop of `Node.election` (lines 163-183), driven by a
finite list of iteration events; `none` means the event list was exhausted
with the loop still running. -/
def electionLoop (s : NodeState) :
    List InboxEvent → List OutMsg → Option ElectionResult
  | [], _ => none
  | e :: rest, acc =>
    if e.timedOut then
      if s.surrendered = false then
        let (s1, out) := declare_self_as_master s
        some (ElectionResult.declaredMaster s1 (acc ++ out))
      else some (ElectionResult.unsuccessful s acc)
    else
      match e.msg with
      | none => electionLoop s rest acc
      | some m =>
          if ¬ m.key = "election" then electionLoop s rest acc
          else
            let (s1, out, fin) := handle_election_message s m
            if fin then some (ElectionResult.masterFound s1 (acc ++ out))
            else electionLoop s1 rest (acc ++ out)

/-- The prelude of `Node.election` (lines 147-159): color `init`, send
`election(self.id)` to every higher id, reset `is_master` and `surrendered`. -/
def electionStart (s : NodeState) : NodeState × List OutMsg :=
  let s1 := changeColor s "init"
  let out := ((List.range (s.max_node_id + 1)).filter (fun j => s.id < j)).map
    (fun j => OutMsg.mk j "election" (MVal.intV s.id))
  ({ s1 with is_master := false, surrendered := false }, out)

/-- The mode `Node.run` (lines 114-140) selects at the top of its loop. -/
def driverPhase (s : NodeState) : String :=
  if s.master_id = none then "election"
  else if s.is_master then "master" else "slave"

/-- Exact ceiling division, `math.ceil(n / k)` for naturals and `0 < k`. -/
def ceilDiv (n k : Nat) : Nat := (n + k - 1) / k

/-- Python `enumerate` starting at index `i`. -/
def enumFrom {α : Type} : Nat → List α → List (Nat × α)
  | _, [] => []
  | i, a :: t => (i, a) :: enumFrom (i + 1) t

/-- The `for idx, node_id in enumerate(nodes)` loop of `Node.assign_colors`
(lines 337-338), writing into `nodes_to_color`. -/
def assignLoop (g : Nat) : List (Nat × Nat) → List (Nat × String) → List (Nat × String)
  | [], d => d
  | p :: rest, d =>
      assignLoop g rest (dictSet d p.2 (if p.1 < g then "green" else "red"))

/-- `Node.assign_colors` (lines 321-338).  `shuffled` is the permutation of
`list(self.alive_nodes)` that `random.shuffle` produced;
`n_green = math.ceil((len(alive_nodes) + 1) / 3) - 1`. -/
def assign_colors (s : NodeState) (shuffled : List Nat) : NodeState :=
  let g := ceilDiv (s.alive_nodes.length + 1) 3 - 1
  let s1 := changeColor s "green"
  let s2 := { s1 with node_colors := dictSet s1.node_colors s1.id "green" }
  { s2 with nodes_to_color := assignLoop g (enumFrom 0 shuffled) s2.nodes_to_color }

/-- The string a received value is displayed/stored as; color replies carry
strings, so only `strV` occurs at the modelled call sites. -/
def mvalStr : MVal → String
  | MVal.strV t => t
  | MVal.intV n => toString n

/-- `self.master_id` read inside `slave_loop`, where it is never `None`. -/
def masterOf (s : NodeState) : Nat := s.master_id.getD 0

/-- One iteration event of `Node.slave_loop` (lines 424-481): whether
`master_timeout.timed_out()` and `heartbeat_timeout.timed_out()` returned
true at the top of the iteration, and the message (if any) read afterwards. -/
structure SlaveEvent where
  masterTimedOut : Bool
  heartbeatTimedOut : Bool
  msg : Option Message
  deriving DecidableEq, Repr

/-- How `Node.slave_loop` terminates.  `raisedMasterDisconnected` would be an
exit through `MasterDisconnectedException` (`exceptions.py`, line 9); it is
part of the behavior type so claims about it are expressible, but
`slaveLoop` exits the master-timeout case through `masterLost` (lines
427-432 log, clear the master fields and `break`). -/
inductive SlaveResult where
  | masterLost (s : NodeState) (out : List OutMsg)
  | newMasterFound (s : NodeState) (out : List OutMsg)
  | raisedMasterDisconnected (s : NodeState) (out : List OutMsg)
  deriving DecidableEq, Repr

/-- The `while True` loop of `Node.slave_loop` (lines 424-481); `none` means
the event list was exhausted with the loop still running. -/
def slaveLoop (s : NodeState) : List SlaveEvent → List OutMsg → Option SlaveResult
  | [], _ => none
  | e :: rest, acc =>
    if e.masterTimedOut then
      some (SlaveResult.masterLost { s with is_master := false, master_id := none } acc)
    else
      let acc1 := if e.heartbeatTimedOut then
          acc ++ [⟨masterOf s, "heartbeat", MVal.strV "request"⟩] else acc
      match e.msg with
      | none => slaveLoop s rest acc1
      | some m =>
        match (if m.key = "election" then handle_election_message s m else (s, [], false)) with
        | (s1, out, newMaster) =>
          let acc2 := acc1 ++ out
          if newMaster then some (SlaveResult.newMasterFound s1 acc2)
          else if ¬ some m.sender_id = s1.master_id then slaveLoop s1 rest acc2
          else
            let acc3 := if m.key = "heartbeat" ∧ m.value = MVal.strV "request" then
                acc2 ++ [⟨m.sender_id, "heartbeat", MVal.strV "response"⟩] else acc2
            if m.key = "color" then
              let s2 := changeColor s1 (mvalStr m.value)
              slaveLoop s2 rest (acc3 ++ [⟨masterOf s2, "color", MVal.strV s2.color⟩])
            else slaveLoop s1 rest acc3

/-- Whether a slave-loop outcome is a raised `MasterDisconnectedException`. -/
def isMasterDisconnectedRaise : Option SlaveResult → Bool
  | some (SlaveResult.raisedMasterDisconnected _ _) => true
  | _ => false

/-- How `Node.all_colors_assigned` (lines 340-374) terminates: `finished`
carries the returned boolean (`len(self.nodes_to_color) == 0`); `reset` is
`ClusterResetException` escaping from `check_for_cluster_changes`. -/
inductive ColorWaitResult where
  | finished (s : NodeState) (out : List OutMsg) (allAssigned : Bool)
  | reset (s : NodeState) (out : List OutMsg)
  deriving DecidableEq, Repr

/-- `Node.all_colors_assigned` (lines 340-374), driven by iteration events;
an exhausted event list behaves like `read_next_message` returning `None`
(the loop then breaks). -/
def allColorsAssigned (s : NodeState) :
    List InboxEvent → List OutMsg → ColorWaitResult
  | [], acc => ColorWaitResult.finished s acc (decide (s.nodes_to_color = []))
  | e :: rest, acc =>
    if s.nodes_to_color = [] then ColorWaitResult.finished s acc true
    else
      match e.msg with
      | none => ColorWaitResult.finished s acc (decide (s.nodes_to_color = []))
      | some m =>
        if e.timedOut then ColorWaitResult.finished s acc (decide (s.nodes_to_color = []))
        else
          let g := check_for_cluster_changes s m false
          if g.raised then ColorWaitResult.reset g.state (acc ++ g.sent)
          else
            let acc1 := acc ++ g.sent
            if ¬ m.sender_id ∈ g.state.alive_nodes then allColorsAssigned g.state rest acc1
            else if m.key = "color" then
              allColorsAssigned
                { g.state with
                    nodes_to_color := dictRemove g.state.nodes_to_color m.sender_id,
                    node_colors := dictSet g.state.node_colors m.sender_id (mvalStr m.value) }
                rest acc1
            else if m.key = "heartbeat" ∧ m.value = MVal.strV "request" then
              allColorsAssigned g.state rest
                (acc1 ++ [⟨m.sender_id, "heartbeat", MVal.strV "response"⟩])
            else allColorsAssigned g.state rest acc1

/-- The per-round resend in `Node.setup_colors` (lines 391-396): one
`color/<color>` send per pending entry of `nodes_to_color`. -/
def colorSends (s : NodeState) : List OutMsg :=
  s.nodes_to_color.map (fun p => ⟨p.1, "color", MVal.strV p.2⟩)

/-- How `Node.setup_colors` terminates. -/
inductive SetupResult where
  | success (s : NodeState) (out : List OutMsg)
  | reset (s : NodeState) (out : List OutMsg)
  deriving DecidableEq, Repr

/-- The `while n_tries > 0` retry loop of `Node.setup_colors` (lines
390-406), including the final `raise ClusterResetException` once the tries
are exhausted.  `rounds` supplies the iteration events each
`all_colors_assigned` call consumes. -/
def setupColorsLoop : Nat → NodeState → List (List InboxEvent) → List OutMsg → SetupResult
  | 0, s, _, acc => SetupResult.reset s acc
  | Nat.succ t, s, rounds, acc =>
    match allColorsAssigned s (rounds.headD []) (acc ++ colorSends s) with
    | ColorWaitResult.reset s1 out => SetupResult.reset s1 out
    | ColorWaitResult.finished s1 out true => SetupResult.success s1 out
    | ColorWaitResult.finished s1 out false => setupColorsLoop t s1 rounds.tail out

/-- Outcome of one message-bearing iteration of `Node.master_loop`
(lines 511-535): resulting state, sends, whether `ClusterResetException`
escaped from the guard, and which slave timeouts were reset. -/
structure MasterStep where
  state : NodeState
  sent : List OutMsg
  raised : Bool
  timeoutResets : List Nat
  deriving DecidableEq, Repr

/-- One iteration of `Node.master_loop` processing message `m`.  The
`check_slave_timeouts` scan (lines 514-515) reads only the slave timeout
clocks, not the message, so it is independent of the per-message behavior
modelled here. -/
def masterLoopStep (s : NodeState) (m : Message) : MasterStep :=
  let g := check_for_cluster_changes s m false
  if g.raised then ⟨g.state, g.sent, true, []⟩
  else if ¬ m.sender_id ∈ g.state.alive_nodes then ⟨g.state, g.sent, false, []⟩
  else if m.key = "heartbeat" then
    ⟨g.state, g.sent ++ [⟨m.sender_id, "heartbeat", MVal.strV "response"⟩],
      false, [m.sender_id]⟩
  else ⟨g.state, g.sent, false, []⟩

/-- JSON-representable store values of ex03; `null` is Python `None`. -/
inductive JVal where
  | null
  | jstr (s : String)
  | jint (n : Int)
  deriving DecidableEq, Repr

/-- The module-level `__store` dict of `store_controller.py`. -/
abbrev Store := List (String × JVal)

/-- What the parent answers a GET with (`store_service.py`, lines 47-68):
a status 200 body carrying a value, 404, another status code, or a raised
transport error from `httpx.get`. -/
inductive ParentGetResp where
  | status200 (v : JVal)
  | status404
  | otherStatus (code : Nat)
  | transportFailure
  deriving DecidableEq, Repr

/-- `get_key_from_parent` (`store_service.py`, lines 47-68): the root
(no parent) answers `value None` locally; 200 returns the body's value;
404 returns `value None`; anything else raises. -/
def get_key_from_parent (parent : Option String) (resp : ParentGetResp) :
    Except Unit JVal :=
  match parent with
  | none => Except.ok JVal.null
  | some _ =>
    match resp with
    | ParentGetResp.status200 v => Except.ok v
    | ParentGetResp.status404 => Except.ok JVal.null
    | ParentGetResp.otherStatus _ => Except.error ()
    | ParentGetResp.transportFailure => Except.error ()

/-- `get_item` (`store_controller.py`, lines 28-57): resulting store, HTTP
status, and the `value` field of the reply (`none` for the 503 error body). -/
def get_item (store : Store) (key : String) (parent : Option String)
    (resp : ParentGetResp) : Store × Nat × Option JVal :=
  match dictGet store key with
  | some v => (store, 200, some v)
  | none =>
    match get_key_from_parent parent resp with
    | Except.error _ => (store, 503, none)
    | Except.ok v =>
        (dictSet store key v, if ¬ v = JVal.null then 200 else 404, some v)

/-- `put_key_in_parent` (`store_service.py`, lines 91-125).  `resp` is the
status of the synchronous `httpx.put`, `none` when the request itself raised;
a background (non-waiting) send never raises into the caller. -/
def put_key_in_parent (parent : Option String) (wait : Bool) (resp : Option Nat) :
    Except Unit Unit :=
  match parent with
  | none => Except.ok ()
  | some _ =>
    if wait then
      match resp with
      | some code => if code = 200 then Except.ok () else Except.error ()
      | none => Except.error ()
    else Except.ok ()

/-- `put_item` (`store_controller.py`, lines 60-88): the local store is
updated first; a parent failure turns into a 503 reply. -/
def put_item (store : Store) (key : String) (v : JVal) (wait : Bool)
    (parent : Option String) (resp : Option Nat) : Store × Nat :=
  let store1 := dictSet store key v
  match put_key_in_parent parent wait resp with
  | Except.ok _ => (store1, 200)
  | Except.error _ => (store1, 503)

/-- A Python object as it appears in the `path` list of
`cluster_structure.find_absolute_parent_path`: an int index, a node-name
string, or `None` from an unset tree slot. -/
inductive PyObj where
  | pint (n : Nat)
  | pstr (s : String)
  | pnone
  deriving DecidableEq, Repr

/-- `__get_parent_node_idx` (`cluster_structure.py`, lines 21-31):
`int((node_idx + 1) / 2) - 1`.  For `node_idx ≥ 1` this equals
`⌊(node_idx − 1) / 2⌋`; Python yields −1 at index 0, which the modelled
walk never reaches. -/
def parentIdx (i : Nat) : Nat := (i + 1) / 2 - 1

/-- Reading `__binary_tree[i]` as a Python object. -/
def treeEntry (tree : List (Option String)) (i : Nat) : PyObj :=
  match tree.getD i none with
  | some s => PyObj.pstr s
  | none => PyObj.pnone

/-- Structural helper for the `while parent_node_id != 0` walk: the first
argument is iteration fuel.  Since `parentIdx p < p` whenever `0 < p`, fuel
equal to the starting index always suffices (`walkParentsFuel_irrel` makes
the fuel irrelevance precise), so the `0`-fuel cutoff is never reached. -/
def walkParentsFuel (tree : List (Option String)) : Nat → Nat → List PyObj
  | 0, _ => []
  | fuel + 1, p =>
      if p = 0 then []
      else treeEntry tree (parentIdx p) :: walkParentsFuel tree fuel (parentIdx p)

/-- The `while parent_node_id != 0` walk (lines 59-62), collecting the
entries `__binary_tree[parent_node_id]` appended to `path`, starting from the
current `parent_node_id`. -/
def walkParents (tree : List (Option String)) (p : Nat) : List PyObj :=
  walkParentsFuel tree p p

/-- Whether a Python object is a `str`. -/
def isPyStr : PyObj → Bool
  | PyObj.pstr _ => true
  | _ => false

/-- The underlying string of a `str` object. -/
def pyStrVal : PyObj → String
  | PyObj.pstr t => t
  | _ => ""

/-- Python `sep.join(l)`: raises `TypeError` unless every element is a
`str`. -/
def pyJoin (sep : String) (l : List PyObj) : Except String String :=
  if l.all isPyStr then Except.ok (String.intercalate sep (l.map pyStrVal))
  else Except.error "TypeError"

/-- `cluster_structure.find_absolute_parent_path` (lines 34-67) together with
`__add_node` (lines 8-18), acting on the module state `(__binary_tree,
__next_idx)`.  Returns the updated state and the value of the
`'/'.join(path[::-1])` expression.  When the looked-up name sits at index 0
the Python loop never terminates (parent of 0 is −1 and stays −1); that case
is represented by an explicit error value. -/
def find_absolute_parent_path (tree : List (Option String)) (next_idx : Nat)
    (name : String) : List (Option String) × Nat × Except String String :=
  let found := tree.findIdx? (fun e => e = some name)
  let tree1 := match found with
    | some _ => tree
    | none => tree.set next_idx (some name)
  let nidx1 := match found with
    | some _ => next_idx
    | none => next_idx + 1
  let node_idx := match found with
    | some i => i
    | none => next_idx
  if node_idx = 0 then (tree1, nidx1, Except.error "nontermination")
  else
    let p0 := parentIdx node_idx
    let path := (PyObj.pint p0 :: walkParents tree1 p0) ++ [PyObj.pstr ""]
    (tree1, nidx1, pyJoin "/" path.reverse)

end KivDs

namespace KivDs

@[simp] lemma changeColor_id (s : NodeState) (c : String) :
    (changeColor s c).id = s.id := by
  unfold changeColor; split <;> rfl

@[simp] lemma changeColor_node_colors (s : NodeState) (c : String) :
    (changeColor s c).node_colors = s.node_colors := by
  unfold changeColor; split <;> rfl

@[simp] lemma changeColor_nodes_to_color (s : NodeState) (c : String) :
    (changeColor s c).nodes_to_color = s.nodes_to_color := by
  unfold changeColor; split <;> rfl

@[simp] lemma changeColor_alive_nodes (s : NodeState) (c : String) :
    (changeColor s c).alive_nodes = s.alive_nodes := by
  unfold changeColor; split <;> rfl

lemma dictGet_dictSet_self {α β : Type} [DecidableEq α]
    (d : List (α × β)) (k : α) (v : β) :
    dictGet (dictSet d k v) k = some v := by
  induction d with
  | nil => simp [dictGet, dictSet]
  | cons p t ih =>
    by_cases hp : p.1 = k
    · simp [dictSet, hp, dictGet]
    · simp [dictSet, hp, dictGet, ih]

lemma dictSet_fresh {α β : Type} [DecidableEq α]
    (d : List (α × β)) (k : α) (v : β) (h : dictGet d k = none) :
    dictSet d k v = d ++ [(k, v)] := by
  induction d with
  | nil => simp [dictSet]
  | cons p t ih =>
    by_cases hp : p.1 = k
    · simp [dictGet, hp] at h
    · simp [dictGet, hp] at h
      simp [dictSet, hp, ih h]

lemma dictGet_append_none {α β : Type} [DecidableEq α]
    (d e : List (α × β)) (k : α) (h : dictGet d k = none) :
    dictGet (d ++ e) k = dictGet e k := by
  induction d with
  | nil => simp
  | cons p t ih =>
    by_cases hp : p.1 = k
    · simp [dictGet, hp] at h
    · simp [dictGet, hp] at h
      simp [dictGet, hp, ih h]

lemma enumFrom_map_snd {α : Type} : ∀ (i : Nat) (l : List α),
    (enumFrom i l).map Prod.snd = l := by
  intro i l
  induction l generalizing i with
  | nil => rfl
  | cons a t ih => simp [enumFrom, ih]

lemma assignLoop_fresh (g : Nat) :
    ∀ (l : List (Nat × Nat)) (d : List (Nat × String)),
      (∀ p ∈ l, dictGet d p.2 = none) → (l.map Prod.snd).Nodup →
      assignLoop g l d =
        d ++ l.map (fun p => (p.2, if p.1 < g then "green" else "red")) := by
  intro l
  induction l with
  | nil => intro d _ _; simp [assignLoop]
  | cons p rest ih =>
    intro d hfresh hnodup
    have hhead : dictGet d p.2 = none := hfresh p (List.mem_cons_self p rest)
    have hnotin : ¬ p.2 ∈ rest.map Prod.snd := (List.nodup_cons.mp hnodup).1
    have htail : (rest.map Prod.snd).Nodup := (List.nodup_cons.mp hnodup).2
    rw [assignLoop, dictSet_fresh d p.2 _ hhead]
    rw [ih (d ++ [(p.2, if p.1 < g then "green" else "red")]) ?_ htail]
    · simp
    · intro q hq
      have h1 : dictGet d q.2 = none := hfresh q (List.mem_cons_of_mem p hq)
      have h2 : ¬ p.2 = q.2 := by
        intro he
        rw [he] at hnotin
        exact hnotin (List.mem_map_of_mem Prod.snd hq)
      rw [dictGet_append_none d _ q.2 h1]
      simp [dictGet, h2]

lemma countColor_cons (p : Nat × String) (d : List (Nat × String)) (c : String) :
    countColor (p :: d) c = (if p.2 = c then 1 else 0) + countColor d c := by
  by_cases h : p.2 = c
  · simp [countColor, List.filter_cons, h, Nat.add_comm]
  · simp [countColor, List.filter_cons, h]

lemma countColor_assign_green (g : Nat) :
    ∀ (l : List Nat) (i : Nat),
      countColor ((enumFrom i l).map
          (fun p => (p.2, if p.1 < g then "green" else "red"))) "green"
        = min (g - i) l.length := by
  intro l
  induction l with
  | nil => intro i; simp [enumFrom, countColor]
  | cons a t ih =>
    intro i
    have h := ih (i + 1)
    rw [show enumFrom i (a :: t) = (i, a) :: enumFrom (i + 1) t from rfl,
        List.map_cons, countColor_cons, h, List.length_cons]
    by_cases hi : i < g
    · rw [if_pos hi, if_pos (show ("green" : String) = "green" from rfl)]
      omega
    · rw [if_neg hi, if_neg (show ¬ ("red" : String) = "green" by decide)]
      omega

lemma countColor_assign_red (g : Nat) :
    ∀ (l : List Nat) (i : Nat),
      countColor ((enumFrom i l).map
          (fun p => (p.2, if p.1 < g then "green" else "red"))) "red"
        = l.length - min (g - i) l.length := by
  intro l
  induction l with
  | nil => intro i; simp [enumFrom, countColor]
  | cons a t ih =>
    intro i
    have h := ih (i + 1)
    rw [show enumFrom i (a :: t) = (i, a) :: enumFrom (i + 1) t from rfl,
        List.map_cons, countColor_cons, h, List.length_cons]
    by_cases hi : i < g
    · rw [if_pos hi, if_neg (show ¬ ("green" : String) = "red" by decide)]
      omega
    · rw [if_neg hi, if_pos (show ("red" : String) = "red" from rfl)]
      omega

lemma assign_entries_green_or_red (g : Nat) :
    ∀ (l : List Nat) (i : Nat) (p : Nat × String),
      p ∈ (enumFrom i l).map (fun q => (q.2, if q.1 < g then "green" else "red")) →
      p.2 = "green" ∨ p.2 = "red" := by
  intro l
  induction l with
  | nil => intro i p hp; simp [enumFrom] at hp
  | cons a t ih =>
    intro i p hp
    simp only [enumFrom, List.map_cons, List.mem_cons] at hp
    rcases hp with hp | hp
    · subst hp
      by_cases hi : i < g
      · left; simp [hi]
      · right; simp [hi]
    · exact ih (i + 1) p hp

lemma assign_keys (g : Nat) :
    ∀ (l : List Nat) (i : Nat),
      ((enumFrom i l).map
          (fun p => (p.2, if p.1 < g then "green" else "red"))).map Prod.fst = l := by
  intro l
  induction l with
  | nil => intro i; rfl
  | cons a t ih => intro i; simp [enumFrom, ih]

/-- **C3.** In `handle_election_message` and in `check_for_cluster_changes`,
`master_id` is changed only by a `victory` message from a strictly higher id
(and then it is set to the sender); a `victory` from a sender with id ≤ own id
leaves the whole state — in particular `master_id`, `is_master`,
`surrendered` — unchanged in both handlers. -/
theorem victory_promotion_strict (s : NodeState) (m : Message) :
    (¬ (handle_election_message s m).1.master_id = s.master_id →
      m.value = MVal.strV "victory" ∧ s.id < m.sender_id ∧
      (handle_election_message s m).1.master_id = some m.sender_id)
    ∧ (∀ finding : Bool, ¬ (check_for_cluster_changes s m finding).state.master_id = s.master_id →
      m.value = MVal.strV "victory" ∧ s.id < m.sender_id ∧
      (check_for_cluster_changes s m finding).state.master_id = some m.sender_id)
    ∧ (m.value = MVal.strV "victory" → m.sender_id ≤ s.id →
      handle_election_message s m = (s, [], false)
      ∧ ∀ finding : Bool, check_for_cluster_changes s m finding = ⟨s, [], false⟩) := by
  refine ⟨?_, ?_, ?_⟩
  · intro h
    rcases hval : m.value with n | t
    · by_cases hlt : n < s.id
      · simp [handle_election_message, hval, hlt] at h
      · simp [handle_election_message, hval, hlt] at h
    · by_cases hvic : t = "victory"
      · subst hvic
        by_cases hgt : s.id < m.sender_id
        · by_cases hm : s.master_id = some m.sender_id
          · simp [handle_election_message, hval, hgt, hm] at h
          · exact ⟨rfl, hgt, by simp [handle_election_message, hval, hgt, hm]⟩
        · simp [handle_election_message, hval, hgt] at h
      · by_cases hs : t = "surrender" ∧ s.surrendered = false
        · simp [handle_election_message, hval, hvic, hs] at h
        · simp [handle_election_message, hval, hvic, hs] at h
  · intro finding h
    by_cases hk : m.key = "election"
    · rcases hval : m.value with n | t
      · by_cases hlt : n < s.id
        · simp [check_for_cluster_changes, hk, hval, hlt] at h
        · simp [check_for_cluster_changes, hk, hval, hlt] at h
      · by_cases hvic : t = "victory"
        · subst hvic
          by_cases hgt : s.id < m.sender_id
          · exact ⟨rfl, hgt, by simp [check_for_cluster_changes, hk, hval, hgt]⟩
          · simp [check_for_cluster_changes, hk, hval, hgt] at h
        · simp [check_for_cluster_changes, hk, hval, hvic] at h
    · simp [check_for_cluster_changes, hk] at h
  · intro hv hle
    have hgt : ¬ s.id < m.sender_id := by omega
    refine ⟨?_, ?_⟩
    · simp [handle_election_message, hv, hgt]
    · intro finding
      by_cases hk : m.key = "election"
      · simp [check_for_cluster_changes, hk, hv, hgt]
      · simp [check_for_cluster_changes, hk]

/-- Witness for `victory_promotion_strict`: a `victory` message from sender 1
to node 2 changes nothing in either handler. -/
theorem victory_promotion_strict_witness :
    handle_election_message
        ⟨2, 2, "init", false, none, false, [], [], []⟩
        ⟨"election", MVal.strV "victory", 1⟩ =
      (⟨2, 2, "init", false, none, false, [], [], []⟩, [], false) ∧
    check_for_cluster_changes
        ⟨2, 2, "init", false, none, false, [], [], []⟩
        ⟨"election", MVal.strV "victory", 1⟩ false =
      ⟨⟨2, 2, "init", false, none, false, [], [], []⟩, [], false⟩ := by
  have h := (victory_promotion_strict
    ⟨2, 2, "init", false, none, false, [], [], []⟩
    ⟨"election", MVal.strV "victory", 1⟩).2.2 rfl (by decide)
  exact ⟨h.1, h.2 false⟩

/-- **C1.** When the election timeout fires: if the node has not surrendered,
the election declares it master — `is_master := true`, `master_id := self.id`,
color `master`, and an `election/victory` send to every peer — and returns;
if it has surrendered, the election ends with `ElectionUnsuccessful`. -/
theorem election_timeout_outcome (s : NodeState) (m? : Option Message)
    (rest : List InboxEvent) (acc : List OutMsg) :
    (s.surrendered = false →
      electionLoop s (⟨m?, true⟩ :: rest) acc =
        some (ElectionResult.declaredMaster
          { s with is_master := true, master_id := some s.id, color := "master" }
          (acc ++ (peers s).map (fun j => ⟨j, "election", MVal.strV "victory"⟩))))
    ∧ (s.surrendered = true →
      electionLoop s (⟨m?, true⟩ :: rest) acc =
        some (ElectionResult.unsuccessful s acc)) := by
  rcases s with ⟨i, mx, c, im, mid, sur, al, nc, ntc⟩
  constructor
  · intro h
    simp only at h
    subst h
    by_cases hc : c = "master"
    · subst hc
      simp [electionLoop, declare_self_as_master, changeColor, broadcastMsgs, peers]
    · simp [electionLoop, declare_self_as_master, changeColor, broadcastMsgs, peers, hc]
  · intro h
    simp only at h
    subst h
    simp [electionLoop]

/-- Witness for `election_timeout_outcome`: node 2 of three that never
surrendered declares itself master when the timeout fires; node 1 that
surrendered ends unsuccessfully. -/
theorem election_timeout_outcome_witness :
    electionLoop ⟨2, 2, "init", false, none, false, [], [], []⟩ [⟨none, true⟩] [] =
      some (ElectionResult.declaredMaster
        { NodeState.mk 2 2 "init" false none false [] [] [] with
            is_master := true, master_id := some 2, color := "master" }
        ([] ++ (peers ⟨2, 2, "init", false, none, false, [], [], []⟩).map
            (fun j => ⟨j, "election", MVal.strV "victory"⟩)))
    ∧ electionLoop ⟨1, 2, "init", false, none, true, [], [], []⟩ [⟨none, true⟩] [] =
      some (ElectionResult.unsuccessful ⟨1, 2, "init", false, none, true, [], [], []⟩ []) :=
  ⟨(election_timeout_outcome ⟨2, 2, "init", false, none, false, [], [], []⟩ none [] []).1 rfl,
   (election_timeout_outcome ⟨1, 2, "init", false, none, true, [], [], []⟩ none [] []).2 rfl⟩

/-- **C5.** The cluster-change guard: an `election/victory` from a higher id
adopts the sender as master and raises `ClusterReset`; an `election/<int v>`
with `v < self.id` sends `election/victory` back to the sender, leaving the
state unchanged, and raises exactly when the sender is not in `alive_nodes`
and the guard is not in discovery mode; every other message leaves the state
unchanged, sends nothing and raises nothing. -/
theorem cluster_change_guard_cases (s : NodeState) (m : Message) (finding : Bool) :
    (m.key = "election" → m.value = MVal.strV "victory" → s.id < m.sender_id →
      check_for_cluster_changes s m finding =
        ⟨{ s with master_id := some m.sender_id, is_master := false }, [], true⟩)
    ∧ (∀ v : Nat, m.key = "election" → m.value = MVal.intV v → v < s.id →
      (check_for_cluster_changes s m finding).state = s
      ∧ (check_for_cluster_changes s m finding).sent =
          [⟨m.sender_id, "election", MVal.strV "victory"⟩]
      ∧ ((check_for_cluster_changes s m finding).raised = true ↔
          (finding = false ∧ ¬ m.sender_id ∈ s.alive_nodes)))
    ∧ (¬ (m.key = "election" ∧ ((∃ v, m.value = MVal.intV v ∧ v < s.id) ∨
          (m.value = MVal.strV "victory" ∧ s.id < m.sender_id))) →
      check_for_cluster_changes s m finding = ⟨s, [], false⟩) := by
  refine ⟨?_, ?_, ?_⟩
  · intro hk hv hgt
    simp [check_for_cluster_changes, hk, hv, hgt]
  · intro v hk hv hlt
    refine ⟨?_, ?_, ?_⟩ <;> simp [check_for_cluster_changes, hk, hv, hlt]
  · intro hother
    by_cases hk : m.key = "election"
    · rcases hval : m.value with n | t
      · have hge : ¬ n < s.id := fun hlt => hother ⟨hk, Or.inl ⟨n, hval, hlt⟩⟩
        simp [check_for_cluster_changes, hk, hval, hge]
      · by_cases hvic : t = "victory"
        · subst hvic
          have hle : ¬ s.id < m.sender_id := fun hgt => hother ⟨hk, Or.inr ⟨hval, hgt⟩⟩
          simp [check_for_cluster_changes, hk, hval, hle]
        · simp [check_for_cluster_changes, hk, hval, hvic]
    · simp [check_for_cluster_changes, hk]

/-- Witness for `cluster_change_guard_cases`: a victory from node 2 makes the
leader (id 1) step down and raise; an `election(0)` from an unknown node 0
gets a victory reply and raises; a heartbeat leaves everything unchanged. -/
theorem cluster_change_guard_cases_witness :
    check_for_cluster_changes ⟨1, 2, "master", true, some 1, false, [0], [], []⟩
        ⟨"election", MVal.strV "victory", 2⟩ false =
      ⟨{ NodeState.mk 1 2 "master" true (some 1) false [0] [] [] with
          master_id := some 2, is_master := false }, [], true⟩
    ∧ ((check_for_cluster_changes ⟨1, 2, "master", true, some 1, false, [], [], []⟩
          ⟨"election", MVal.intV 0, 0⟩ false).raised = true ↔
        (false = false ∧ ¬ (0 : Nat) ∈ ([] : List Nat)))
    ∧ check_for_cluster_changes ⟨1, 2, "master", true, some 1, false, [0], [], []⟩
        ⟨"heartbeat", MVal.strV "request", 0⟩ false =
      ⟨⟨1, 2, "master", true, some 1, false, [0], [], []⟩, [], false⟩ :=
  ⟨(cluster_change_guard_cases ⟨1, 2, "master", true, some 1, false, [0], [], []⟩
      ⟨"election", MVal.strV "victory", 2⟩ false).1 rfl rfl (by decide),
   ((cluster_change_guard_cases ⟨1, 2, "master", true, some 1, false, [], [], []⟩
      ⟨"election", MVal.intV 0, 0⟩ false).2.1 0 rfl rfl (by decide)).2.2,
   (cluster_change_guard_cases ⟨1, 2, "master", true, some 1, false, [0], [], []⟩
      ⟨"heartbeat", MVal.strV "request", 0⟩ false).2.2 (by simp)⟩

/-- **C2.** After `assign_colors` over the alive follower set, exactly
`ceil((|alive| + 1) / 3) − 1` followers are marked green in `nodes_to_color`
and all remaining followers red; the leader records itself green in
`node_colors`; the green total including the leader is
`max(1, ceil((|alive| + 1) / 3))`; and with `|alive| + 1 ≤ 3` no follower is
green. -/
theorem assign_colors_quota (s : NodeState) (shuffled : List Nat)
    (hperm : shuffled.Perm s.alive_nodes) (halive : s.alive_nodes.Nodup)
    (hempty : s.nodes_to_color = []) :
    countColor (assign_colors s shuffled).nodes_to_color "green"
        = ceilDiv (s.alive_nodes.length + 1) 3 - 1
    ∧ countColor (assign_colors s shuffled).nodes_to_color "red"
        = s.alive_nodes.length - (ceilDiv (s.alive_nodes.length + 1) 3 - 1)
    ∧ (∀ p ∈ (assign_colors s shuffled).nodes_to_color,
        p.2 = "green" ∨ p.2 = "red")
    ∧ ((assign_colors s shuffled).nodes_to_color.map Prod.fst).Perm s.alive_nodes
    ∧ dictGet (assign_colors s shuffled).node_colors s.id = some "green"
    ∧ countColor (assign_colors s shuffled).nodes_to_color "green" + 1
        = max 1 (ceilDiv (s.alive_nodes.length + 1) 3)
    ∧ (s.alive_nodes.length + 1 ≤ 3 →
        countColor (assign_colors s shuffled).nodes_to_color "green" = 0) := by
  have hlen : shuffled.length = s.alive_nodes.length := hperm.length_eq
  have hnodup : shuffled.Nodup := hperm.nodup_iff.mpr halive
  have hsnd : (enumFrom 0 shuffled).map Prod.snd = shuffled :=
    enumFrom_map_snd 0 shuffled
  have hntc : (assign_colors s shuffled).nodes_to_color
      = (enumFrom 0 shuffled).map
          (fun p => (p.2, if p.1 < ceilDiv (s.alive_nodes.length + 1) 3 - 1
            then "green" else "red")) := by
    unfold assign_colors
    dsimp only
    rw [changeColor_nodes_to_color, hempty]
    rw [assignLoop_fresh _ (enumFrom 0 shuffled) []
      (fun p _ => rfl) (by rw [hsnd]; exact hnodup)]
    rfl
  have hnc : (assign_colors s shuffled).node_colors
      = dictSet s.node_colors s.id "green" := by
    unfold assign_colors
    dsimp only
    rw [changeColor_node_colors, changeColor_id]
  have hgle : ceilDiv (s.alive_nodes.length + 1) 3 - 1 ≤ s.alive_nodes.length := by
    unfold ceilDiv; omega
  have hgreen : countColor (assign_colors s shuffled).nodes_to_color "green"
      = ceilDiv (s.alive_nodes.length + 1) 3 - 1 := by
    rw [hntc, countColor_assign_green, hlen]
    omega
  refine ⟨hgreen, ?_, ?_, ?_, ?_, ?_, ?_⟩
  · rw [hntc, countColor_assign_red, hlen]
    omega
  · intro p hp
    rw [hntc] at hp
    exact assign_entries_green_or_red _ shuffled 0 p hp
  · rw [hntc, assign_keys]
    exact hperm
  · rw [hnc]
    exact dictGet_dictSet_self s.node_colors s.id "green"
  · rw [hgreen]
    unfold ceilDiv
    omega
  · intro hsmall
    rw [hgreen]
    unfold ceilDiv
    omega

/-- Witness for `assign_colors_quota`: leader 2 with alive followers {0, 1}
(so k = 3) assigns zero greens to followers and records itself green. -/
theorem assign_colors_quota_witness :
    countColor (assign_colors ⟨2, 2, "master", true, some 2, false, [0, 1], [], []⟩
        [1, 0]).nodes_to_color "green" = 0
    ∧ countColor (assign_colors ⟨2, 2, "master", true, some 2, false, [0, 1], [], []⟩
        [1, 0]).nodes_to_color "red" = 2
    ∧ dictGet (assign_colors ⟨2, 2, "master", true, some 2, false, [0, 1], [], []⟩
        [1, 0]).node_colors 2 = some "green" := by
  have h := assign_colors_quota ⟨2, 2, "master", true, some 2, false, [0, 1], [], []⟩
    [1, 0] (by decide) (by decide) rfl
  exact ⟨h.1.trans (by decide), h.2.1.trans (by decide), h.2.2.2.2.1⟩

/-- **C4 counterexample.** The claim says the follower loop raises
MasterDisconnected when the master timeout elapses.  On a concrete follower
(id 0, master 2) whose master timeout has fired, `slave_loop` instead clears
the master fields and breaks out normally; no exception is raised. -/
theorem slave_timeout_no_raise_counterexample :
    slaveLoop ⟨0, 2, "slave", false, some 2, false, [], [], []⟩
        [⟨true, false, none⟩] [] =
      some (SlaveResult.masterLost ⟨0, 2, "slave", false, none, false, [], [], []⟩ [])
    ∧ isMasterDisconnectedRaise
        (slaveLoop ⟨0, 2, "slave", false, some 2, false, [], [], []⟩
          [⟨true, false, none⟩] []) = false := by
  exact ⟨rfl, rfl⟩

/-- **C4 (amended).** When the master timeout elapses, the follower loop sets
`is_master := false` and `master_id := None` and returns normally (breaking
the loop) without raising MasterDisconnected; the driver, seeing
`master_id = None`, then runs a new election. -/
theorem slave_master_timeout_breaks (s : NodeState) (e : SlaveEvent)
    (rest : List SlaveEvent) (acc : List OutMsg) (h : e.masterTimedOut = true) :
    slaveLoop s (e :: rest) acc =
      some (SlaveResult.masterLost
        { s with is_master := false, master_id := none } acc)
    ∧ isMasterDisconnectedRaise (slaveLoop s (e :: rest) acc) = false
    ∧ driverPhase { s with is_master := false, master_id := none } = "election" := by
  have h1 : slaveLoop s (e :: rest) acc =
      some (SlaveResult.masterLost
        { s with is_master := false, master_id := none } acc) := by
    simp [slaveLoop, h]
  refine ⟨h1, by rw [h1]; rfl, by simp [driverPhase]⟩

/-- Witness for `slave_master_timeout_breaks`: follower 1 of three, master 2,
master timeout fired. -/
theorem slave_master_timeout_breaks_witness :
    slaveLoop ⟨1, 2, "slave", false, some 2, false, [], [], []⟩
        [⟨true, true, none⟩] [] =
      some (SlaveResult.masterLost ⟨1, 2, "slave", false, none, false, [], [], []⟩ [])
    ∧ driverPhase ⟨1, 2, "slave", false, none, false, [], [], []⟩ = "election" := by
  have h := slave_master_timeout_breaks ⟨1, 2, "slave", false, some 2, false, [], [], []⟩
    ⟨true, true, none⟩ [] [] rfl
  exact ⟨h.1, h.2.2⟩

/-- **C6 counterexample.** The claim says pending `nodes_to_color` entries
surviving one `MAX_COLOR_ASSIGNMENT_DURATION` timeout cause ClusterReset.
Concretely: leader 2 with pending `{0: red}` and 2 tries; round one times out
with the entry still pending (`all_colors_assigned` returns `false`), yet the
coloring phase ends in success after round two delivers the ack — no
ClusterReset is raised. -/
theorem color_timeout_no_reset_counterexample :
    allColorsAssigned ⟨2, 2, "green", true, some 2, false, [0], [(2, "green")], [(0, "red")]⟩
        [] (colorSends ⟨2, 2, "green", true, some 2, false, [0], [(2, "green")], [(0, "red")]⟩) =
      ColorWaitResult.finished
        ⟨2, 2, "green", true, some 2, false, [0], [(2, "green")], [(0, "red")]⟩
        [⟨0, "color", MVal.strV "red"⟩] false
    ∧ setupColorsLoop 2 ⟨2, 2, "green", true, some 2, false, [0], [(2, "green")], [(0, "red")]⟩
        [[], [⟨some ⟨"color", MVal.strV "red", 0⟩, false⟩]] [] =
      SetupResult.success
        ⟨2, 2, "green", true, some 2, false, [0], [(2, "green"), (0, "red")], []⟩
        [⟨0, "color", MVal.strV "red"⟩, ⟨0, "color", MVal.strV "red"⟩] := by
  exact ⟨rfl, rfl⟩

/-- **C6 (amended).** `all_colors_assigned` waits until `nodes_to_color` is
empty or the round's `MAX_COLOR_ASSIGNMENT_DURATION` timeout ends it; after a
timed-out round with pending entries the leader re-sends the pending colors,
up to `n_color_tries` rounds in total, and ClusterReset is raised only once
all rounds are exhausted with the pending set still non-empty. -/
theorem color_wait_and_retry (s : NodeState) (evs : List InboxEvent)
    (acc : List OutMsg) (t : Nat) :
    (s.nodes_to_color = [] →
      allColorsAssigned s evs acc = ColorWaitResult.finished s acc true)
    ∧ (allColorsAssigned s [] acc =
        ColorWaitResult.finished s acc (decide (s.nodes_to_color = [])))
    ∧ (¬ s.nodes_to_color = [] →
        setupColorsLoop t s (List.replicate t []) acc =
          SetupResult.reset s (acc ++ (List.replicate t (colorSends s)).flatten)) := by
  refine ⟨?_, rfl, ?_⟩
  · intro h
    cases evs with
    | nil => simp [allColorsAssigned, h]
    | cons e rest => simp [allColorsAssigned, h]
  · intro h
    induction t generalizing acc with
    | zero => simp [setupColorsLoop]
    | succ t ih =>
      have hround : allColorsAssigned s [] (acc ++ colorSends s) =
          ColorWaitResult.finished s (acc ++ colorSends s) false := by
        rw [show allColorsAssigned s [] (acc ++ colorSends s) =
          ColorWaitResult.finished s (acc ++ colorSends s)
            (decide (s.nodes_to_color = [])) from rfl]
        simp [h]
      rw [show List.replicate (t + 1) ([] : List InboxEvent)
        = [] :: List.replicate t [] from rfl]
      rw [setupColorsLoop]
      simp only [List.headD_cons, List.tail_cons, hround]
      rw [ih (acc ++ colorSends s)]
      simp [List.replicate_succ, List.append_assoc]

/-- Witness for `color_wait_and_retry`: a leader with nothing pending
finishes immediately; a leader with `{0: red}` pending and 2 silent rounds
ends in ClusterReset having re-sent the color twice. -/
theorem color_wait_and_retry_witness :
    allColorsAssigned ⟨2, 2, "green", true, some 2, false, [0], [], []⟩
        [⟨none, false⟩] [] =
      ColorWaitResult.finished ⟨2, 2, "green", true, some 2, false, [0], [], []⟩ [] true
    ∧ setupColorsLoop 2 ⟨2, 2, "green", true, some 2, false, [0], [], [(0, "red")]⟩
        (List.replicate 2 []) [] =
      SetupResult.reset ⟨2, 2, "green", true, some 2, false, [0], [], [(0, "red")]⟩
        ([] ++ (List.replicate 2 (colorSends
          ⟨2, 2, "green", true, some 2, false, [0], [], [(0, "red")]⟩)).flatten) :=
  ⟨(color_wait_and_retry ⟨2, 2, "green", true, some 2, false, [0], [], []⟩
      [⟨none, false⟩] [] 2).1 rfl,
   (color_wait_and_retry ⟨2, 2, "green", true, some 2, false, [0], [], [(0, "red")]⟩
      [] [] 2).2.2 (by decide)⟩

/-- **C7 counterexample.** The claim says a 404 from the parent leaves the
local store without an entry for the key.  Concretely: a GET of `k` on an
empty store whose parent answers 404 returns not-found but stores
`k ↦ None`. -/
theorem get_item_404_caches_counterexample :
    get_item [] "k" (some "parent") ParentGetResp.status404 =
      ([("k", JVal.null)], 404, some JVal.null)
    ∧ ¬ dictGet (get_item [] "k" (some "parent") ParentGetResp.status404).1 "k"
        = none := by
  exact ⟨rfl, by decide⟩

/-- **C7 (amended).** GET(k): a local hit returns the stored value; on a 200
parent reply the value is cached and returned; on a 404 parent reply
not-found is returned and the key is cached locally with value None (the
store does gain a null entry for k); on transport failure 503 is returned
without caching; at the root a local miss returns not-found without
consulting any parent response. -/
theorem get_item_behavior (store : Store) (key : String) (p : String)
    (resp : ParentGetResp) :
    (∀ v, dictGet store key = some v →
      ∀ parent, get_item store key parent resp = (store, 200, some v))
    ∧ (dictGet store key = none → ∀ v, resp = ParentGetResp.status200 v →
        ¬ v = JVal.null →
        get_item store key (some p) resp = (dictSet store key v, 200, some v))
    ∧ (dictGet store key = none → resp = ParentGetResp.status404 →
        get_item store key (some p) resp =
          (dictSet store key JVal.null, 404, some JVal.null)
        ∧ dictGet (get_item store key (some p) resp).1 key = some JVal.null)
    ∧ (dictGet store key = none → resp = ParentGetResp.transportFailure →
        get_item store key (some p) resp = (store, 503, none))
    ∧ (dictGet store key = none →
        (get_item store key none resp).2.1 = 404
        ∧ ∀ r2, get_item store key none resp = get_item store key none r2) := by
  refine ⟨?_, ?_, ?_, ?_, ?_⟩
  · intro v hv parent
    simp [get_item, hv]
  · intro hmiss v hresp hnn
    subst hresp
    simp [get_item, hmiss, get_key_from_parent, hnn]
  · intro hmiss hresp
    subst hresp
    constructor
    · simp [get_item, hmiss, get_key_from_parent]
    · simp only [get_item, hmiss, get_key_from_parent]
      exact dictGet_dictSet_self store key JVal.null
  · intro hmiss hresp
    subst hresp
    simp [get_item, hmiss, get_key_from_parent]
  · intro hmiss
    constructor
    · simp [get_item, hmiss, get_key_from_parent]
    · intro r2
      simp [get_item, hmiss, get_key_from_parent]

/-- Witness for `get_item_behavior`: a hit, a cached 200, a cached 404 null,
a non-caching 503 and a root miss, each at concrete inputs. -/
theorem get_item_behavior_witness :
    get_item [("a", JVal.jint 7)] "a" (some "parent") ParentGetResp.status404 =
      ([("a", JVal.jint 7)], 200, some (JVal.jint 7))
    ∧ get_item [] "b" (some "parent") (ParentGetResp.status200 (JVal.jint 5)) =
        (dictSet [] "b" (JVal.jint 5), 200, some (JVal.jint 5))
    ∧ get_item [] "c" (some "parent") ParentGetResp.transportFailure =
        ([], 503, none)
    ∧ (get_item [] "d" none ParentGetResp.status404).2.1 = 404 := by
  refine ⟨?_, ?_, ?_, ?_⟩
  · exact (get_item_behavior [("a", JVal.jint 7)] "a" "parent"
      ParentGetResp.status404).1 (JVal.jint 7) rfl (some "parent")
  · exact (get_item_behavior [] "b" "parent"
      (ParentGetResp.status200 (JVal.jint 5))).2.1 rfl (JVal.jint 5) rfl (by decide)
  · exact (get_item_behavior [] "c" "parent"
      ParentGetResp.transportFailure).2.2.2.1 rfl rfl
  · exact ((get_item_behavior [] "d" "parent" ParentGetResp.status404).2.2.2.2 rfl).1

/-- **C8.** PUT(k, v) at a non-root node: the local store maps k to v before
and regardless of the parent outcome, and with synchronous propagation a
parent failure surfaces as 503 while the local entry still holds v. -/
theorem put_item_write_through (store : Store) (key : String) (v : JVal)
    (wait : Bool) (parent : Option String) (resp : Option Nat) :
    dictGet (put_item store key v wait parent resp).1 key = some v
    ∧ (¬ parent = none → wait = true → ¬ resp = some 200 →
        (put_item store key v wait parent resp).2 = 503
        ∧ dictGet (put_item store key v wait parent resp).1 key = some v) := by
  have hstore : (put_item store key v wait parent resp).1 = dictSet store key v := by
    unfold put_item
    cases put_key_in_parent parent wait resp <;> rfl
  have hget : dictGet (put_item store key v wait parent resp).1 key = some v := by
    rw [hstore]
    exact dictGet_dictSet_self store key v
  refine ⟨hget, ?_⟩
  intro hparent hwait hresp
  refine ⟨?_, hget⟩
  rcases parent with _ | q
  · exact absurd rfl hparent
  · subst hwait
    rcases resp with _ | code
    · rfl
    · have hcode : ¬ code = 200 := by
        intro he
        exact hresp (by rw [he])
      simp [put_item, put_key_in_parent, hcode]

/-- Witness for `put_item_write_through`: a synchronous PUT whose parent
answers 500 yields 503 with the local entry committed. -/
theorem put_item_write_through_witness :
    (put_item [] "k" (JVal.jint 9) true (some "parent") (some 500)).2 = 503
    ∧ dictGet (put_item [] "k" (JVal.jint 9) true (some "parent") (some 500)).1 "k"
        = some (JVal.jint 9) := by
  have h := (put_item_write_through [] "k" (JVal.jint 9) true (some "parent")
    (some 500)).2 (by decide) rfl (by decide)
  exact ⟨h.1, h.2⟩

/-- **C9.** The tree-position walk of `find_absolute_parent_path` starts its
`path` list with the integer `parent_node_id` instead of a node name, so the
final `'/'.join(path[::-1])` always raises TypeError: registering `A` under
root `R` (slot 1) does insert `A` at `next_idx` and increment it, but the
call raises instead of returning `/R`, and so does the repeated call. -/
theorem tree_path_join_type_error :
    find_absolute_parent_path [some "R", none, none] 1 "A" =
      ([some "R", some "A", none], 2, Except.error "TypeError")
    ∧ find_absolute_parent_path [some "R", some "A", none] 2 "A" =
      ([some "R", some "A", none], 2, Except.error "TypeError") := by
  exact ⟨rfl, rfl⟩

/-- Fuel irrelevance of the parent walk: any fuel at least the current index
computes the same list, so `walkParents`, which uses the starting index as
fuel, never hits the cutoff. -/
lemma walkParentsFuel_irrel (tree : List (Option String)) :
    ∀ (p f1 f2 : Nat), p ≤ f1 → p ≤ f2 →
      walkParentsFuel tree f1 p = walkParentsFuel tree f2 p := by
  intro p
  induction p using Nat.strong_induction_on with
  | _ p ih =>
    intro f1 f2 h1 h2
    cases p with
    | zero =>
      cases f1 <;> cases f2 <;> simp [walkParentsFuel]
    | succ q =>
      obtain ⟨f1a, rfl⟩ : ∃ k, f1 = k + 1 := ⟨f1 - 1, by omega⟩
      obtain ⟨f2a, rfl⟩ : ∃ k, f2 = k + 1 := ⟨f2 - 1, by omega⟩
      simp only [walkParentsFuel]
      rw [if_neg (by omega), if_neg (by omega)]
      have hp : parentIdx (q + 1) < q + 1 := by unfold parentIdx; omega
      rw [ih (parentIdx (q + 1)) hp f1a f2a (by omega) (by omega)]

/-- The guard leaves everything untouched on a message from an undiscovered
sender unless it raises: used by the leader-loop drop property. -/
lemma guard_outsider_ok (s : NodeState) (m : Message)
    (hns : ¬ m.sender_id ∈ s.alive_nodes)
    (hok : (check_for_cluster_changes s m false).raised = false) :
    check_for_cluster_changes s m false = ⟨s, [], false⟩ := by
  by_cases hk : m.key = "election"
  · rcases hval : m.value with n | t
    · by_cases hlt : n < s.id
      · exfalso
        simp [check_for_cluster_changes, hk, hval, hlt, hns] at hok
      · simp [check_for_cluster_changes, hk, hval, hlt]
    · by_cases hc : t = "victory" ∧ s.id < m.sender_id
      · exfalso
        simp [check_for_cluster_changes, hk, hval, hc] at hok
      · simp [check_for_cluster_changes, hk, hval, hc]
  · simp [check_for_cluster_changes, hk]

/-- **C10.** In the master loop and in the color-acknowledgement wait, a
message whose sender is not in `alive_nodes` and that does not make the
cluster-change guard raise is dropped: the state (including
`nodes_to_color`), the sends and the slave-timeout resets are exactly those
of skipping the message. -/
theorem unknown_sender_dropped (s : NodeState) (m : Message)
    (rest : List InboxEvent) (acc : List OutMsg)
    (hns : ¬ m.sender_id ∈ s.alive_nodes)
    (hok : (check_for_cluster_changes s m false).raised = false) :
    masterLoopStep s m = ⟨s, [], false, []⟩
    ∧ (¬ s.nodes_to_color = [] →
        allColorsAssigned s (⟨some m, false⟩ :: rest) acc =
          allColorsAssigned s rest acc) := by
  have hg := guard_outsider_ok s m hns hok
  constructor
  · simp [masterLoopStep, hg, hns]
  · intro hne
    simp [allColorsAssigned, hne, hg, hns]

/-- Witness for `unknown_sender_dropped`: a heartbeat from undiscovered node
0 reaches leader 2 (alive = {1}); nothing happens in either loop. -/
theorem unknown_sender_dropped_witness :
    masterLoopStep ⟨2, 2, "green", true, some 2, false, [1], [], [(1, "red")]⟩
        ⟨"heartbeat", MVal.strV "request", 0⟩ =
      ⟨⟨2, 2, "green", true, some 2, false, [1], [], [(1, "red")]⟩, [], false, []⟩
    ∧ allColorsAssigned ⟨2, 2, "green", true, some 2, false, [1], [], [(1, "red")]⟩
        [⟨some ⟨"heartbeat", MVal.strV "request", 0⟩, false⟩] [] =
      allColorsAssigned ⟨2, 2, "green", true, some 2, false, [1], [], [(1, "red")]⟩ [] [] := by
  have h := unknown_sender_dropped
    ⟨2, 2, "green", true, some 2, false, [1], [], [(1, "red")]⟩
    ⟨"heartbeat", MVal.strV "request", 0⟩ [] [] (by decide) (by decide)
  exact ⟨h.1, h.2 (by decide)⟩

end KivDs
